import Mathlib

/-!
A shallow embedding of the LinkedInAnalyzer pipeline (`extract_skills.py`
and `utils.py`) together with proofs about its observable behavior.

Modelling conventions:
* External effects (the two HTTP fetchers, the OpenAI client, the file
  system, logging, sleeping) are made explicit.  A `World` value supplies
  the outcome of every external call, files are `Option (List _)` values
  (`none` means the file does not exist), and a raised Python exception
  is an `Except.error` value.
* Python's `str.split(",")` and `str.strip()` are embedded as the
  character-list functions `pySplit` and `pyStrip` (ASCII whitespace; the
  extra Unicode whitespace stripped by Python does not occur in any input
  considered here).
* The in-memory `set` of queried ids is embedded as a duplicate-free list
  built by insert-if-absent (`setUpdate`), so that `List.length` mirrors
  Python's `len` on the set.
-/

/-- Python `s.split(sep)` for a single-character separator: splits on every
occurrence, keeping empty fragments (`"".split(",") == [""]`). -/
def pySplit (sep : Char) (s : String) : List String :=
  (s.toList.splitOn sep).map List.asString

/-- Python `s.strip()`: drop leading and trailing whitespace characters. -/
def pyStrip (s : String) : String :=
  ((s.toList.dropWhile Char.isWhitespace).reverse.dropWhile Char.isWhitespace).reverse.asString

/-- A raised Python exception, distinguished only as far as the `except`
clauses in the source distinguish them: a
`requests.exceptions.RequestException` versus any other `Exception`. -/
inductive PyErr where
  | request
  | other
deriving DecidableEq

/-- One element of the JSON array returned by `fetch_job_listings`; the
driver only ever reads its `"job_id"` entry (line 126). -/
structure Listing where
  job_id : String
deriving DecidableEq

/-- The JSON value returned by `fetch_job_details`: a mapping (modelled as
an association list of string fields), a JSON array, or anything else.
Field values are the strings the driver reads out of it. -/
inductive Detail where
  | dict (fields : List (String × String)) : Detail
  | jsonList (elems : List Detail) : Detail
  | otherShape : Detail

/-- Externally observable calls made by the driver, recorded as a trace. -/
inductive Event where
  | fetchListings (location_id : String) (page : Nat)
  | fetchDetails (job_id : String)
deriving DecidableEq

/-- The outcomes of all external calls: `fetch_job_listings` (by field,
location id and page), `fetch_job_details` (by job id), and the OpenAI
request made by `extract_skills` (by prompt).  `Except.error` means the
call raised. -/
structure World where
  fetch_job_listings : String → String → Nat → Except PyErr (List Listing)
  fetch_job_details : String → Except PyErr Detail
  llm : String → Except PyErr String

/- ### utils.py -/

/-- The retry-relevant entries of `config.yaml` as read by
`openai_request` (`utils.py` lines 22-24, 39). -/
structure RetryConfig where
  MAX_RETRIES : Nat
  INITIAL_DELAY : ℚ
  BACKOFF_FACTOR : ℚ

/-- Outcome of one `client.chat.completions.create` call: the stripped
response content, or a `RateLimitError`.  (Any other exception would
propagate out of `openai_request` uncaught; it is not needed for the
claims and is not modelled.) -/
inductive Attempt where
  | ok (response : String)
  | rateLimit
deriving DecidableEq

/-- What a call to `openai_request` did: how many completion attempts it
made, the sequence of `time.sleep` delays, and `some response` if it
returned, `none` if it raised the terminal
`Exception("Max retries reached...")`. -/
structure RetryTrace where
  attempts : Nat
  sleeps : List ℚ
  result : Option String
deriving DecidableEq

/-- The `while retries < config["MAX_RETRIES"]` loop of `openai_request`
(`utils.py` lines 24-39).  `retries` starts at 0 and increases by exactly 1
per iteration, so the loop is driven here by `fuel = MAX_RETRIES - retries`;
the guard `retries < MAX_RETRIES` is exactly `fuel > 0`.  On a rate limit
the code does `retries += 1; time.sleep(delay); delay *= BACKOFF_FACTOR`. -/
def openai_go (cfg : RetryConfig) (client : Nat → Attempt) :
    Nat → ℚ → List ℚ → Nat → RetryTrace
  | 0, _, sleeps, attempts => ⟨attempts, sleeps, none⟩
  | fuel + 1, delay, sleeps, attempts =>
    match client attempts with
    | .ok r => ⟨attempts + 1, sleeps, some r⟩
    | .rateLimit => openai_go cfg client fuel (delay * cfg.BACKOFF_FACTOR) (sleeps ++ [delay]) (attempts + 1)

/-- `openai_request` (`utils.py` lines 15-42): `retries = 0`,
`delay = INITIAL_DELAY`, then the retry loop; falling out of the loop
raises the terminal exception (`result = none`). -/
def openai_request (cfg : RetryConfig) (client : Nat → Attempt) : RetryTrace :=
  openai_go cfg client cfg.MAX_RETRIES cfg.INITIAL_DELAY [] 0

/- ### extract_skills.py : helpers -/

/-- The f-string prompt built by `extract_skills` (lines 68-72). -/
def skills_prompt (job_description : String) : String :=
  "\n    Extract the most relevant skills from the following job description. \n    Return the skills as a comma-separated list:\n    " ++ job_description ++ "\n    "

/-- The parse on line 74:
`[skill.strip() for skill in response.split(",") if skill.strip()]`. -/
def parse_skills (response : String) : List String :=
  ((pySplit ',' response).filter (fun s => pyStrip s != "")).map pyStrip

/-- `extract_skills` (lines 66-74): build the prompt, call
`openai_request` (abstracted by `w.llm`), parse the response.  An
exception from the client propagates. -/
def extract_skills (llm : String → Except PyErr String) (job_description : String) :
    Except PyErr (List String) :=
  match llm (skills_prompt job_description) with
  | .error e => .error e
  | .ok response => .ok (parse_skills response)

/-- `load_queried_ids` (lines 33-38): missing file gives the empty set;
otherwise the set of the file's lines, each stripped.  The set is
represented as a duplicate-free list. -/
def load_queried_ids (file : Option (List String)) : List String :=
  match file with
  | none => []
  | some lines => (lines.map pyStrip).dedup

/-- `save_queried_ids` (lines 40-45): append one row per id, creating the
file if needed. -/
def save_queried_ids (file : Option (List String)) (job_ids : List String) :
    Option (List String) :=
  some (file.getD [] ++ job_ids)

/-- The header row written by `save_job_data` (line 78). -/
def csv_headers : List String :=
  ["job_position", "company_name", "seniority_level", "job_location", "skills"]

/-- One processed job as appended to the sink file. -/
structure JobRecord where
  job_position : String
  company_name : String
  seniority_level : String
  job_location : String
  skills : List String
deriving DecidableEq

/-- The row written for one job (lines 87-93): the four fields followed by
the skills joined with `", "`. -/
def job_row (j : JobRecord) : List String :=
  [j.job_position, j.company_name, j.seniority_level, j.job_location,
   String.intercalate ", " j.skills]

/-- `save_job_data` (lines 76-93): write the header row if the file does
not exist, then append one row per job. -/
def save_job_data (file : Option (List (List String))) (jobs : List JobRecord) :
    Option (List (List String)) :=
  let init := match file with
    | none => [csv_headers]
    | some rows => rows
  some (init ++ jobs.map job_row)

/- ### extract_skills.py : per-job processing -/

/-- The shape normalization on lines 134-140: a non-empty JSON array is
replaced by its first element (only once), then anything that is not a
mapping is rejected. -/
def normalize_details (jd : Detail) : Option (List (String × String)) :=
  let jd1 := match jd with
    | .jsonList (x :: _) => x
    | j => j
  match jd1 with
  | .dict fields => some fields
  | _ => none

/-- Line 143: `job_details.get("job_description", "")` — the absent
description defaults to the EMPTY string, unlike the other fields. -/
def job_description_of (fields : List (String × String)) : String :=
  (fields.lookup "job_description").getD ""

/-- Lines 147-153: the record appended to `new_jobs`, with each absent
field defaulting to `"N/A"` (note the capitalized `"Seniority_level"`
lookup key). -/
def assemble_record (fields : List (String × String)) (skills : List String) : JobRecord :=
  { job_position := (fields.lookup "job_position").getD "N/A"
    company_name := (fields.lookup "company_name").getD "N/A"
    seniority_level := (fields.lookup "Seniority_level").getD "N/A"
    job_location := (fields.lookup "job_location").getD "N/A"
    skills := skills }

/-- The body of the inner `try` (lines 130-155) for one job id:
fetch details, normalize the shape (`.ok none` is the `continue` on a
non-mapping shape), extract skills, assemble the record.  `.error e` is an
exception raised inside the `try`. -/
def process_job (w : World) (job_id : String) : Except PyErr (Option JobRecord) :=
  match w.fetch_job_details job_id with
  | .error e => .error e
  | .ok jd =>
    match normalize_details jd with
    | none => .ok none
    | some fields =>
      match extract_skills w.llm (job_description_of fields) with
      | .error e => .error e
      | .ok skills => .ok (some (assemble_record fields skills))

/-- The `for job in job_listings` loop (lines 125-162): each listing whose
id is already in `queried` is skipped without any call; otherwise
`fetch_job_details` is invoked (recorded as an event) and a raised
exception — `RequestException` or any other — is caught, logged, and the
loop continues with the next listing.  Returns
(`new_jobs`, `new_job_ids`, events). -/
def process_listings (w : World) (queried : List String) :
    List Listing → List JobRecord × List String × List Event
  | [] => ([], [], [])
  | job :: rest =>
    if job.job_id ∈ queried then
      process_listings w queried rest
    else
      let r := process_listings w queried rest
      match process_job w job.job_id with
      | .ok (some rec) => (rec :: r.1, job.job_id :: r.2.1, Event.fetchDetails job.job_id :: r.2.2)
      | .ok none => (r.1, r.2.1, Event.fetchDetails job.job_id :: r.2.2)
      | .error _ => (r.1, r.2.1, Event.fetchDetails job.job_id :: r.2.2)

/- ### extract_skills.py : the driver -/

/-- `field = "data scientist"` (line 102). -/
def FIELD : String := "data scientist"

/-- `max_job_ids = 10000` (line 103). -/
def max_job_ids : Nat := 10000

/-- `LOCATION_IDS` (lines 26-31). -/
def LOCATION_IDS : List String :=
  ["101318387", "106315325", "101098412", "101949407", "104383890", "101174742", "90009540",
   "103366113", "100025096", "102199904", "101282230", "103035651", "105015875", "90009659",
   "101165590", "90009496", "104738515", "90009824", "100752109", "91000000", "91000002", "91000007",
   "90010383", "90010409", "101452733", "100992797"]

/-- Python `queried_ids.update(new_job_ids)` on the list-as-set
representation: insert each id that is not already present. -/
def setUpdate (s : List String) (new_ids : List String) : List String :=
  new_ids.foldl (fun acc i => if i ∈ acc then acc else acc ++ [i]) s

/-- The mutable state visible outside the driver: the in-memory
`queried_ids` set, the sink file `data/job_data.csv`, the dedupe file
`data/queried_job_ids.csv` (both `none` when they do not exist), and the
trace of external fetch calls. -/
structure RunState where
  queried : List String
  sink : Option (List (List String))
  dedupe_file : Option (List String)
  events : List Event
deriving DecidableEq

/-- The `while page <= 100 and total_job_ids < max_job_ids and
api_credits_remaining` loop (lines 112-180); `api_credits_remaining` is
never assigned `False`, so the guard is the first two conjuncts.  Each
iteration increases `page` by exactly 1, so the loop is driven by fuel
(any fuel above `101 - page` gives the loop's own exit).  A raised
listings fetch, or an empty listings array, breaks out; otherwise the
listings are processed, and if `new_jobs` is non-empty the batch is
committed (lines 164-170): `save_job_data`, `save_queried_ids`,
`queried_ids.update`, `total_job_ids += len(new_job_ids)`. -/
def location_loop (w : World) (loc : String) :
    Nat → Nat → Nat → RunState → RunState
  | 0, _, _, s => s
  | fuel + 1, page, total, s =>
    if page ≤ 100 ∧ total < max_job_ids then
      match w.fetch_job_listings FIELD loc page with
      | .error _ => { s with events := s.events ++ [Event.fetchListings loc page] }
      | .ok listings =>
        if listings = [] then
          { s with events := s.events ++ [Event.fetchListings loc page] }
        else
          let r := process_listings w s.queried listings
          let s1 : RunState :=
            { s with events := s.events ++ [Event.fetchListings loc page] ++ r.2.2 }
          if r.1 = [] then
            location_loop w loc fuel (page + 1) total s1
          else
            location_loop w loc fuel (page + 1) (total + r.2.1.length)
              { s1 with
                sink := save_job_data s1.sink r.1
                dedupe_file := save_queried_ids s1.dedupe_file r.2.1
                queried := setUpdate s1.queried r.2.1 }
    else s

/-- One iteration of `for location_id in LOCATION_IDS` (lines 105-180):
`page = 1`, `total_job_ids = len(queried_ids)`, then the page loop.  Fuel
101 covers pages 1 through 100 plus the final failing guard check. -/
def run_location (w : World) (s : RunState) (loc : String) : RunState :=
  location_loop w loc 101 1 s.queried.length s

/-- The whole `for location_id in ...` loop over a given location list. -/
def run_locations (w : World) (locs : List String) (s : RunState) : RunState :=
  locs.foldl (run_location w) s

/-- `main` (lines 95-182): load the dedupe store from the dedupe file,
then process every location in `LOCATION_IDS`. -/
def run_main (w : World) (dedupe0 : Option (List String))
    (sink0 : Option (List (List String))) : RunState :=
  run_locations w LOCATION_IDS
    { queried := load_queried_ids dedupe0
      sink := sink0
      dedupe_file := dedupe0
      events := [] }

/- ### Helper lemmas -/

/-- `setUpdate` never removes a member. -/
lemma mem_setUpdate_of_mem (i : String) (new_ids : List String) :
    ∀ s : List String, i ∈ s → i ∈ setUpdate s new_ids := by
  unfold setUpdate
  induction new_ids with
  | nil => intro s hs; exact hs
  | cons a l ih =>
    intro s hs
    simp only [List.foldl_cons]
    apply ih
    by_cases h : a ∈ s
    · simpa [h] using hs
    · simp [h, List.mem_append, hs]

/-- Listings whose id is already in the dedupe set never produce a
`fetchDetails` call. -/
lemma no_fetch_of_mem_queried (w : World) (q : List String) (i : String) (hq : i ∈ q) :
    ∀ l : List Listing, Event.fetchDetails i ∉ (process_listings w q l).2.2 := by
  intro l
  induction l with
  | nil => simp [process_listings]
  | cons j rest ih =>
    by_cases h : j.job_id ∈ q
    · simpa [process_listings, h] using ih
    · have hij : i ≠ j.job_id := fun hcontra => h (hcontra ▸ hq)
      cases hpj : process_job w j.job_id with
      | error e => simp [process_listings, h, hpj, ih, hij]
      | ok v =>
        cases v with
        | none => simp [process_listings, h, hpj, ih, hij]
        | some rec => simp [process_listings, h, hpj, ih, hij]

/-- `new_jobs` and `new_job_ids` are appended in lockstep (lines 147-155),
so they always have the same length. -/
lemma process_listings_length (w : World) (q : List String) :
    ∀ l : List Listing,
      (process_listings w q l).1.length = (process_listings w q l).2.1.length := by
  intro l
  induction l with
  | nil => rfl
  | cons j rest ih =>
    by_cases h : j.job_id ∈ q
    · simpa [process_listings, h] using ih
    · cases hpj : process_job w j.job_id with
      | error e => simpa [process_listings, h, hpj] using ih
      | ok v =>
        cases v with
        | none => simpa [process_listings, h, hpj] using ih
        | some rec => simpa [process_listings, h, hpj] using ih

/-- The in-memory dedupe set only grows across the page loop. -/
lemma queried_mono_location (w : World) (loc : String) (i : String) :
    ∀ (fuel page total : Nat) (s : RunState), i ∈ s.queried →
      i ∈ (location_loop w loc fuel page total s).queried := by
  intro fuel
  induction fuel with
  | zero => intro page total s hs; simpa [location_loop] using hs
  | succ n ih =>
    intro page total s hs
    by_cases hg : page ≤ 100 ∧ total < max_job_ids
    · cases hfetch : w.fetch_job_listings FIELD loc page with
      | error e => simpa [location_loop, hg, hfetch] using hs
      | ok listings =>
        by_cases hl : listings = []
        · simpa [location_loop, hg, hfetch, hl] using hs
        · by_cases hr : (process_listings w s.queried listings).1 = []
          · simpa [location_loop, hg, hfetch, hl, hr] using
              ih (page + 1) total
                { s with events := s.events ++ [Event.fetchListings loc page] ++
                    (process_listings w s.queried listings).2.2 }
                hs
          · simpa [location_loop, hg, hfetch, hl, hr] using
              ih (page + 1) (total + (process_listings w s.queried listings).2.1.length)
                { queried := setUpdate s.queried (process_listings w s.queried listings).2.1
                  sink := save_job_data s.sink (process_listings w s.queried listings).1
                  dedupe_file := save_queried_ids s.dedupe_file (process_listings w s.queried listings).2.1
                  events := s.events ++ [Event.fetchListings loc page] ++
                    (process_listings w s.queried listings).2.2 }
                (mem_setUpdate_of_mem i _ s.queried hs)
    · simpa [location_loop, hg] using hs

/-- If `i` is already in the dedupe set when a location is processed, the
page loop never adds a `fetchDetails i` event. -/
lemma fetchDetails_event_location (w : World) (loc : String) (i : String) :
    ∀ (fuel page total : Nat) (s : RunState), i ∈ s.queried →
      Event.fetchDetails i ∈ (location_loop w loc fuel page total s).events →
      Event.fetchDetails i ∈ s.events := by
  intro fuel
  induction fuel with
  | zero => intro page total s _ h; simpa [location_loop] using h
  | succ n ih =>
    intro page total s hs h
    by_cases hg : page ≤ 100 ∧ total < max_job_ids
    · cases hfetch : w.fetch_job_listings FIELD loc page with
      | error e =>
        simpa [location_loop, hg, hfetch] using h
      | ok listings =>
        by_cases hl : listings = []
        · simpa [location_loop, hg, hfetch, hl] using h
        · have hnof := no_fetch_of_mem_queried w s.queried i hs listings
          by_cases hr : (process_listings w s.queried listings).1 = []
          · simp only [location_loop] at h
            rw [if_pos hg] at h
            simp only [hfetch, if_neg hl] at h
            rw [if_pos hr] at h
            have h2 := ih (page + 1) total
              { s with events := s.events ++ [Event.fetchListings loc page] ++
                  (process_listings w s.queried listings).2.2 }
              hs h
            simp only [List.append_assoc, List.mem_append] at h2
            rcases h2 with h2 | h2
            · exact h2
            · simp only [List.mem_append, List.mem_cons] at h2
              rcases h2 with (h2 | h2) | h2
              · cases h2
              · cases h2
              · exact absurd h2 hnof
          · simp only [location_loop] at h
            rw [if_pos hg] at h
            simp only [hfetch, if_neg hl, if_neg hr] at h
            have h2 := ih _ _ _ (mem_setUpdate_of_mem i _ s.queried hs) h
            simp only [List.append_assoc, List.mem_append] at h2
            rcases h2 with h2 | h2
            · exact h2
            · simp only [List.mem_append, List.mem_cons] at h2
              rcases h2 with (h2 | h2) | h2
              · cases h2
              · cases h2
              · exact absurd h2 hnof
    · simpa [location_loop, hg] using h

/-- `save_job_data` only appends to the existing rows. -/
lemma save_job_data_extends (file : Option (List (List String))) (jobs : List JobRecord) :
    ∃ t, (save_job_data file jobs).getD [] = file.getD [] ++ t := by
  cases file with
  | none => exact ⟨csv_headers :: jobs.map job_row, by simp [save_job_data]⟩
  | some rows => exact ⟨jobs.map job_row, by simp [save_job_data]⟩

/-- The page loop only ever appends rows to the sink file. -/
lemma sink_extends_location (w : World) (loc : String) :
    ∀ (fuel page total : Nat) (s : RunState),
      ∃ t, (location_loop w loc fuel page total s).sink.getD [] = s.sink.getD [] ++ t := by
  intro fuel
  induction fuel with
  | zero => intro page total s; exact ⟨[], by simp [location_loop]⟩
  | succ n ih =>
    intro page total s
    by_cases hg : page ≤ 100 ∧ total < max_job_ids
    · cases hfetch : w.fetch_job_listings FIELD loc page with
      | error e => exact ⟨[], by simp [location_loop, hg, hfetch]⟩
      | ok listings =>
        by_cases hl : listings = []
        · exact ⟨[], by simp [location_loop, hg, hfetch, hl]⟩
        · by_cases hr : (process_listings w s.queried listings).1 = []
          · obtain ⟨t, ht⟩ := ih (page + 1) total
              { s with events := s.events ++ [Event.fetchListings loc page] ++
                  (process_listings w s.queried listings).2.2 }
            refine ⟨t, ?_⟩
            simp only [location_loop]
            rw [if_pos hg]
            simp only [hfetch, if_neg hl]
            rw [if_pos hr]
            exact ht
          · obtain ⟨u, hu⟩ := save_job_data_extends s.sink (process_listings w s.queried listings).1
            obtain ⟨t, ht⟩ := ih (page + 1) (total + (process_listings w s.queried listings).2.1.length)
              { queried := setUpdate s.queried (process_listings w s.queried listings).2.1
                sink := save_job_data s.sink (process_listings w s.queried listings).1
                dedupe_file := save_queried_ids s.dedupe_file (process_listings w s.queried listings).2.1
                events := s.events ++ [Event.fetchListings loc page] ++
                  (process_listings w s.queried listings).2.2 }
            refine ⟨u ++ t, ?_⟩
            simp only [location_loop]
            rw [if_pos hg]
            simp only [hfetch, if_neg hl]
            rw [if_neg hr]
            rw [ht]
            simp only [hu]
            rw [List.append_assoc]
    · exact ⟨[], by simp [location_loop, hg]⟩

/-- The whole run only ever appends rows to the sink file. -/
lemma sink_extends_run (w : World) :
    ∀ (locs : List String) (s : RunState),
      ∃ t, (run_locations w locs s).sink.getD [] = s.sink.getD [] ++ t := by
  intro locs
  induction locs with
  | nil => intro s; exact ⟨[], by simp [run_locations]⟩
  | cons l ls ih =>
    intro s
    obtain ⟨t1, h1⟩ := sink_extends_location w l 101 1 s.queried.length s
    obtain ⟨t2, h2⟩ := ih (run_location w s l)
    refine ⟨t1 ++ t2, ?_⟩
    have hstep : run_locations w (l :: ls) s = run_locations w ls (run_location w s l) := rfl
    rw [hstep, h2]
    show (run_location w s l).sink.getD [] ++ t2 = s.sink.getD [] ++ (t1 ++ t2)
    rw [show (run_location w s l).sink = (location_loop w l 101 1 s.queried.length s).sink from rfl]
    rw [h1, List.append_assoc]

/-- If `i` is already in the dedupe set, the whole run never adds a
`fetchDetails i` event. -/
lemma fetchDetails_event_run (w : World) (i : String) :
    ∀ (locs : List String) (s : RunState), i ∈ s.queried →
      Event.fetchDetails i ∈ (run_locations w locs s).events →
      Event.fetchDetails i ∈ s.events := by
  intro locs
  induction locs with
  | nil => intro s _ h; simpa [run_locations] using h
  | cons l ls ih =>
    intro s hs h
    have hstep : run_locations w (l :: ls) s = run_locations w ls (run_location w s l) := rfl
    rw [hstep] at h
    have hs2 : i ∈ (run_location w s l).queried :=
      queried_mono_location w l i 101 1 s.queried.length s hs
    have h2 := ih (run_location w s l) hs2 h
    exact fetchDetails_event_location w l i 101 1 s.queried.length s hs h2

/-- With the size of the dedupe set at or above the cap, the page loop
exits immediately without touching the state. -/
lemma location_loop_cap (w : World) (loc : String) (fuel page total : Nat) (s : RunState)
    (h : ¬ total < max_job_ids) : location_loop w loc fuel page total s = s := by
  cases fuel with
  | zero => rfl
  | succ n =>
    simp only [location_loop]
    rw [if_neg (fun hg => h hg.2)]

/- ### Claim theorems -/

/-- The parse described by the spec's words (for the refinement in C2):
split on commas, trim surrounding whitespace from each fragment, discard
the empty fragments, keeping the original order. -/
def split_trim_discard (response : String) : List String :=
  ((pySplit ',' response).map pyStrip).filter (fun s => s != "")

lemma parse_skills_eq_split_trim_discard (r : String) :
    parse_skills r = split_trim_discard r := by
  unfold parse_skills split_trim_discard
  induction pySplit ',' r with
  | nil => rfl
  | cons a l ih =>
    by_cases h : pyStrip a = ""
    · simp [h, ih]
    · simp [h, ih]

/-- C2: for every string returned by the language-model client, the skill
extractor returns the comma-split, trimmed, empty-discarding parse of it
in order; in particular `"Python, SQL,  Java ,,"` parses to exactly
`["Python", "SQL", "Java"]`. -/
theorem skills_parsing_spec :
    (∀ response : String, parse_skills response = split_trim_discard response) ∧
    parse_skills "Python, SQL,  Java ,," = ["Python", "SQL", "Java"] ∧
    (∀ (llm : String → Except PyErr String) (jd r : String),
      llm (skills_prompt jd) = .ok r →
      extract_skills llm jd = .ok (parse_skills r)) := by
  refine ⟨parse_skills_eq_split_trim_discard, rfl, ?_⟩
  intro llm jd r h
  simp [extract_skills, h]

/-- Witness for C2 at a concrete client and description. -/
theorem skills_parsing_spec_witness :
    extract_skills (fun _ => .ok "Python, SQL,  Java ,,") "some job"
      = .ok ["Python", "SQL", "Java"] := by
  have h := skills_parsing_spec.2.2 (fun _ => .ok "Python, SQL,  Java ,,")
    "some job" "Python, SQL,  Java ,," rfl
  rw [h, skills_parsing_spec.2.1]

/-- C3: with `MAX_RETRIES = 2` and a client that always raises
`RateLimitError`, `openai_request` makes exactly 2 attempts, sleeps first
`INITIAL_DELAY` then `INITIAL_DELAY * BACKOFF_FACTOR` (the delay is
multiplied by `BACKOFF_FACTOR` after each rate-limited attempt), and ends
by raising the terminal error — no result value is returned. -/
theorem retry_exhaustion_two_attempts (cfg : RetryConfig) (client : Nat → Attempt)
    (hmax : cfg.MAX_RETRIES = 2) (hrl : ∀ n, client n = Attempt.rateLimit) :
    openai_request cfg client =
      ⟨2, [cfg.INITIAL_DELAY, cfg.INITIAL_DELAY * cfg.BACKOFF_FACTOR], none⟩ := by
  simp [openai_request, hmax, openai_go, hrl 0, hrl 1]

/-- Witness for C3 with `INITIAL_DELAY = 1` and `BACKOFF_FACTOR = 2`. -/
theorem retry_exhaustion_two_attempts_witness :
    openai_request ⟨2, 1, 2⟩ (fun _ => Attempt.rateLimit) = ⟨2, [1, 2], none⟩ := by
  have h := retry_exhaustion_two_attempts ⟨2, 1, 2⟩ (fun _ => Attempt.rateLimit)
    rfl (fun _ => rfl)
  simpa using h

/-- C10: a missing dedupe file loads as the empty set (no exception), and
an existing one loads as exactly the set of its lines with surrounding
whitespace stripped. -/
theorem load_queried_ids_spec :
    load_queried_ids none = [] ∧
    ∀ (lines : List String) (x : String),
      x ∈ load_queried_ids (some lines) ↔ ∃ l ∈ lines, pyStrip l = x := by
  refine ⟨rfl, ?_⟩
  intro lines x
  simp [load_queried_ids, List.mem_dedup, List.mem_map]

/-- A world whose detail endpoint answers with an empty mapping (every
field absent) and whose model echoes its prompt back. -/
def echoWorld : World where
  fetch_job_listings := fun _ _ _ => .ok []
  fetch_job_details := fun _ => .ok (Detail.dict [])
  llm := fun p => .ok p

/-- C4 (counterexample): in a detail response with the description absent,
line 143 defaults the description to the EMPTY string, not to the `"N/A"`
sentinel used for the other fields; the record is assembled from skills
extracted from that empty description, observably different from what the
`"N/A"` default would give. -/
theorem absent_description_counterexample :
    job_description_of [] = "" ∧ ("" : String) ≠ "N/A" ∧
    process_job echoWorld "j1" =
      .ok (some (assemble_record [] (parse_skills (skills_prompt "")))) ∧
    parse_skills (skills_prompt "") ≠ parse_skills (skills_prompt "N/A") := by
  refine ⟨rfl, by decide, rfl, by decide⟩

/-- C4 (amended): each of the four metadata fields — position title,
company name, seniority level (key `"Seniority_level"`), location —
defaults to the `"N/A"` sentinel in the assembled record when absent from
the detail response; the free-text description, which is not itself a
field of the record but is fed to the skill extractor, defaults to the
empty string when absent. -/
theorem absent_fields_default (fields : List (String × String)) (skills : List String) :
    (fields.lookup "job_position" = none →
      (assemble_record fields skills).job_position = "N/A") ∧
    (fields.lookup "company_name" = none →
      (assemble_record fields skills).company_name = "N/A") ∧
    (fields.lookup "Seniority_level" = none →
      (assemble_record fields skills).seniority_level = "N/A") ∧
    (fields.lookup "job_location" = none →
      (assemble_record fields skills).job_location = "N/A") ∧
    (fields.lookup "job_description" = none →
      job_description_of fields = "") := by
  refine ⟨?_, ?_, ?_, ?_, ?_⟩ <;> intro h <;>
    simp [assemble_record, job_description_of, h]

/-- Witness for the amended C4 at the empty detail mapping. -/
theorem absent_fields_default_witness :
    (assemble_record [] []).job_position = "N/A" ∧
    (assemble_record [] []).company_name = "N/A" ∧
    (assemble_record [] []).seniority_level = "N/A" ∧
    (assemble_record [] []).job_location = "N/A" ∧
    job_description_of [] = "" := by
  have h := absent_fields_default [] []
  exact ⟨h.1 rfl, h.2.1 rfl, h.2.2.1 rfl, h.2.2.2.1 rfl, h.2.2.2.2 rfl⟩

/-- C5: a detail response that is a one-element list wrapping a mapping
normalizes exactly like the bare mapping; and a response whose
(once-unwrapped) shape is not a mapping makes `process_job` signal a skip
(no exception), after which the rest of the page is processed unchanged. -/
theorem detail_normalization :
    (∀ fields : List (String × String),
      normalize_details (Detail.jsonList [Detail.dict fields]) =
        normalize_details (Detail.dict fields) ∧
      normalize_details (Detail.dict fields) = some fields) ∧
    (∀ (w : World) (q : List String) (j : Listing) (rest : List Listing) (jd : Detail),
      j.job_id ∉ q → w.fetch_job_details j.job_id = .ok jd →
      normalize_details jd = none →
      process_job w j.job_id = .ok none ∧
      process_listings w q (j :: rest) =
        ((process_listings w q rest).1, (process_listings w q rest).2.1,
         Event.fetchDetails j.job_id :: (process_listings w q rest).2.2)) := by
  constructor
  · intro fields
    exact ⟨rfl, rfl⟩
  · intro w q j rest jd hmem hfetch hnorm
    have hpj : process_job w j.job_id = .ok none := by
      simp [process_job, hfetch, hnorm]
    refine ⟨hpj, ?_⟩
    simp [process_listings, hmem, hpj]

/-- A world whose detail endpoint answers with a non-mapping shape. -/
def badShapeWorld : World where
  fetch_job_listings := fun _ _ _ => .ok []
  fetch_job_details := fun _ => .ok Detail.otherShape
  llm := fun p => .ok p

/-- Witness for C5 at a concrete page. -/
theorem detail_normalization_witness :
    (normalize_details (Detail.jsonList [Detail.dict [("job_position", "DS")]]) =
        normalize_details (Detail.dict [("job_position", "DS")]) ∧
      normalize_details (Detail.dict [("job_position", "DS")]) =
        some [("job_position", "DS")]) ∧
    (process_job badShapeWorld "a" = .ok none ∧
      process_listings badShapeWorld ["z"] [⟨"a"⟩, ⟨"b"⟩] =
        ((process_listings badShapeWorld ["z"] [⟨"b"⟩]).1,
         (process_listings badShapeWorld ["z"] [⟨"b"⟩]).2.1,
         Event.fetchDetails "a" ::
           (process_listings badShapeWorld ["z"] [⟨"b"⟩]).2.2)) := by
  exact ⟨detail_normalization.1 [("job_position", "DS")],
    detail_normalization.2 badShapeWorld ["z"] ⟨"a"⟩ [⟨"b"⟩] Detail.otherShape
      (by decide) rfl rfl⟩

/-- A world whose detail endpoint always raises a `RequestException`. -/
def failingDetailsWorld : World where
  fetch_job_listings := fun _ _ _ => .ok []
  fetch_job_details := fun _ => .error PyErr.request
  llm := fun p => .ok p

/-- C1: an exception raised while fetching or processing one job — a
`RequestException` or any other exception — only skips that job: the
listing contributes no record and no id, its `fetchDetails` call is the
only trace it leaves, and the remaining listings of the page are
processed exactly as before; `process_listings` is total, so the page,
the location, and the run continue. -/
theorem per_job_failure_skips_job (w : World) (q : List String) (j : Listing)
    (rest : List Listing) (e : PyErr)
    (hmem : j.job_id ∉ q) (herr : process_job w j.job_id = .error e) :
    process_listings w q (j :: rest) =
      ((process_listings w q rest).1, (process_listings w q rest).2.1,
       Event.fetchDetails j.job_id :: (process_listings w q rest).2.2) := by
  simp [process_listings, hmem, herr]

/-- Witness for C1: the first job of a page raises, the second is still
processed. -/
theorem per_job_failure_skips_job_witness :
    process_listings failingDetailsWorld [] [⟨"a"⟩, ⟨"b"⟩] =
      ((process_listings failingDetailsWorld [] [⟨"b"⟩]).1,
       (process_listings failingDetailsWorld [] [⟨"b"⟩]).2.1,
       Event.fetchDetails "a" ::
         (process_listings failingDetailsWorld [] [⟨"b"⟩]).2.2) :=
  per_job_failure_skips_job failingDetailsWorld [] ⟨"a"⟩ [⟨"b"⟩] PyErr.request
    (by decide) rfl

/-- C6: a job id that is in the in-memory dedupe set when its listing is
encountered never triggers a `fetch_job_details` call — stated for one
page (against the set in force while that page is scanned) and for an
entire run (for every id loaded from the dedupe file at startup). -/
theorem dedupe_never_refetched :
    (∀ (w : World) (q : List String) (l : List Listing) (i : String), i ∈ q →
      Event.fetchDetails i ∉ (process_listings w q l).2.2) ∧
    (∀ (w : World) (dedupe0 : Option (List String))
      (sink0 : Option (List (List String))) (i : String),
      i ∈ load_queried_ids dedupe0 →
      Event.fetchDetails i ∉ (run_main w dedupe0 sink0).events) := by
  constructor
  · intro w q l i hq
    exact no_fetch_of_mem_queried w q i hq l
  · intro w dedupe0 sink0 i hi hmem
    have h := fetchDetails_event_run w i LOCATION_IDS
      { queried := load_queried_ids dedupe0
        sink := sink0
        dedupe_file := dedupe0
        events := [] } hi hmem
    simp at h

/-- Witness for C6: an id present on the page's dedupe set, and an id
loaded from the dedupe file at startup, are never detail-fetched. -/
theorem dedupe_never_refetched_witness :
    Event.fetchDetails "a" ∉ (process_listings echoWorld ["a"] [⟨"a"⟩]).2.2 ∧
    Event.fetchDetails "a" ∉ (run_main echoWorld (some ["a"]) none).events :=
  ⟨dedupe_never_refetched.1 echoWorld ["a"] [⟨"a"⟩] "a" (by decide),
   dedupe_never_refetched.2 echoWorld (some ["a"]) none "a" (by decide)⟩

/-- A world whose listings endpoint always raises a `RequestException`. -/
def failingListingsWorld : World where
  fetch_job_listings := fun _ _ _ => .error PyErr.request
  fetch_job_details := fun _ => .ok (Detail.dict [])
  llm := fun p => .ok p

/-- C7: when the listings fetch for a page raises, the page loop stops for
that location with the sink file, dedupe file and in-memory set untouched
(so rows persisted by earlier pages remain), the whole run only ever
appends to the sink file, and the driver goes on to fold over the
remaining locations instead of raising. -/
theorem page_failure_containment (w : World) (loc : String) (fuel page total : Nat)
    (s s0 : RunState) (e : PyErr) (rest : List String)
    (hg : page ≤ 100 ∧ total < max_job_ids)
    (hfail : w.fetch_job_listings FIELD loc page = .error e) :
    location_loop w loc (fuel + 1) page total s =
      { s with events := s.events ++ [Event.fetchListings loc page] } ∧
    (∃ t, (run_locations w (loc :: rest) s0).sink.getD [] = s0.sink.getD [] ++ t) ∧
    run_locations w (loc :: rest) s0 = run_locations w rest (run_location w s0 loc) := by
  refine ⟨?_, sink_extends_run w (loc :: rest) s0, rfl⟩
  simp only [location_loop]
  rw [if_pos hg]
  simp [hfail]

/-- Witness for C7 at a concrete failing page. -/
theorem page_failure_containment_witness :
    location_loop failingListingsWorld "90009540" 1 1 0
        { queried := [], sink := none, dedupe_file := none, events := [] } =
      { queried := [], sink := none, dedupe_file := none,
        events := [Event.fetchListings "90009540" 1] } ∧
    (∃ t, (run_locations failingListingsWorld ["90009540"]
        { queried := [], sink := none, dedupe_file := none, events := [] }).sink.getD []
      = ({ queried := [], sink := none, dedupe_file := none,
           events := [] } : RunState).sink.getD [] ++ t) ∧
    run_locations failingListingsWorld ["90009540"]
        { queried := [], sink := none, dedupe_file := none, events := [] } =
      run_locations failingListingsWorld []
        (run_location failingListingsWorld
          { queried := [], sink := none, dedupe_file := none, events := [] }
          "90009540") := by
  have h := page_failure_containment failingListingsWorld "90009540" 0 1 0
    { queried := [], sink := none, dedupe_file := none, events := [] }
    { queried := [], sink := none, dedupe_file := none, events := [] }
    PyErr.request [] ⟨by decide, by decide⟩ rfl
  simpa using h

/-- C8: once the dedupe set holds at least `max_job_ids = 10000` ids, the
remaining locations change nothing at all: in particular no listings page
is fetched (the event trace does not grow) for the rest of the run. -/
theorem global_cap_stops_locations (w : World) (locs : List String) (s : RunState)
    (hcap : max_job_ids ≤ s.queried.length) :
    run_locations w locs s = s ∧ (run_locations w locs s).events = s.events := by
  have hrun : run_locations w locs s = s := by
    induction locs with
    | nil => rfl
    | cons l ls ih =>
      have hloc : run_location w s l = s :=
        location_loop_cap w l 101 1 s.queried.length s (by omega)
      have hstep : run_locations w (l :: ls) s = run_locations w ls (run_location w s l) := rfl
      rw [hstep, hloc]
      exact ih
  exact ⟨hrun, by rw [hrun]⟩

/-- Witness for C8: a state already holding 10000 ids stops the run cold. -/
theorem global_cap_stops_locations_witness :
    run_locations echoWorld LOCATION_IDS
        { queried := List.replicate 10000 "a", sink := none, dedupe_file := none,
          events := [] } =
      { queried := List.replicate 10000 "a", sink := none, dedupe_file := none,
        events := [] } ∧
    (run_locations echoWorld LOCATION_IDS
        { queried := List.replicate 10000 "a", sink := none, dedupe_file := none,
          events := [] }).events =
      ({ queried := List.replicate 10000 "a", sink := none, dedupe_file := none,
         events := [] } : RunState).events :=
  global_cap_stops_locations echoWorld LOCATION_IDS
    { queried := List.replicate 10000 "a", sink := none, dedupe_file := none,
      events := [] }
    (by show max_job_ids ≤ (List.replicate 10000 "a").length
        rw [List.length_replicate]
        exact le_refl _)

/-- C9: `new_jobs` and `new_job_ids` grow in lockstep, and after a page's
listings are processed: with at least one new record, the rows are
appended to the sink file (`save_job_data`), the ids to the dedupe file
(`save_queried_ids`), the in-memory set is updated (`setUpdate`) and the
running total increased, before the loop moves to the next page; with no
new record, the loop moves to the next page with both files, the set and
the total unchanged (only the event trace of the attempted fetches
grows). -/
theorem page_commit_frame (w : World) (loc : String) (fuel page total : Nat)
    (s : RunState) (listings : List Listing)
    (hg : page ≤ 100 ∧ total < max_job_ids)
    (hok : w.fetch_job_listings FIELD loc page = .ok listings)
    (hne : listings ≠ []) :
    (process_listings w s.queried listings).1.length =
      (process_listings w s.queried listings).2.1.length ∧
    ((process_listings w s.queried listings).1 = [] →
      location_loop w loc (fuel + 1) page total s =
        location_loop w loc fuel (page + 1) total
          { s with events := s.events ++ [Event.fetchListings loc page] ++
              (process_listings w s.queried listings).2.2 }) ∧
    ((process_listings w s.queried listings).1 ≠ [] →
      location_loop w loc (fuel + 1) page total s =
        location_loop w loc fuel (page + 1)
          (total + (process_listings w s.queried listings).2.1.length)
          { queried := setUpdate s.queried (process_listings w s.queried listings).2.1
            sink := save_job_data s.sink (process_listings w s.queried listings).1
            dedupe_file := save_queried_ids s.dedupe_file
              (process_listings w s.queried listings).2.1
            events := s.events ++ [Event.fetchListings loc page] ++
              (process_listings w s.queried listings).2.2 }) := by
  refine ⟨process_listings_length w s.queried listings, ?_, ?_⟩
  · intro hempty
    simp only [location_loop]
    rw [if_pos hg]
    simp only [hok, if_neg hne]
    rw [if_pos hempty]
  · intro hfull
    simp only [location_loop]
    rw [if_pos hg]
    simp only [hok, if_neg hne]
    rw [if_neg hfull]

/-- A world whose single listing succeeds end to end. -/
def oneJobWorld : World where
  fetch_job_listings := fun _ _ _ => .ok [⟨"x"⟩]
  fetch_job_details := fun _ => .ok (Detail.dict [])
  llm := fun _ => .ok "A,B"

/-- Witness for C9 at a concrete page with one new job. -/
theorem page_commit_frame_witness :
    (process_listings oneJobWorld ([] : List String) [⟨"x"⟩]).1.length =
      (process_listings oneJobWorld ([] : List String) [⟨"x"⟩]).2.1.length ∧
    ((process_listings oneJobWorld ([] : List String) [⟨"x"⟩]).1 = [] →
      location_loop oneJobWorld "L" 1 1 0
          { queried := [], sink := none, dedupe_file := none, events := [] } =
        location_loop oneJobWorld "L" 0 2 0
          { queried := [], sink := none, dedupe_file := none,
            events := [] ++ [Event.fetchListings "L" 1] ++
              (process_listings oneJobWorld ([] : List String) [⟨"x"⟩]).2.2 }) ∧
    ((process_listings oneJobWorld ([] : List String) [⟨"x"⟩]).1 ≠ [] →
      location_loop oneJobWorld "L" 1 1 0
          { queried := [], sink := none, dedupe_file := none, events := [] } =
        location_loop oneJobWorld "L" 0 2
          (0 + (process_listings oneJobWorld ([] : List String) [⟨"x"⟩]).2.1.length)
          { queried := setUpdate []
              (process_listings oneJobWorld ([] : List String) [⟨"x"⟩]).2.1
            sink := save_job_data none
              (process_listings oneJobWorld ([] : List String) [⟨"x"⟩]).1
            dedupe_file := save_queried_ids none
              (process_listings oneJobWorld ([] : List String) [⟨"x"⟩]).2.1
            events := [] ++ [Event.fetchListings "L" 1] ++
              (process_listings oneJobWorld ([] : List String) [⟨"x"⟩]).2.2 }) :=
  page_commit_frame oneJobWorld "L" 0 1 0
    { queried := [], sink := none, dedupe_file := none, events := [] }
    [⟨"x"⟩] ⟨by decide, by decide⟩ rfl (by decide)

/-- Witness for C10 at a concrete file content. -/
theorem load_queried_ids_spec_witness :
    load_queried_ids none = [] ∧
    (("a" : String) ∈ load_queried_ids (some [" a \n"]) ↔
      ∃ l ∈ [" a \n"], pyStrip l = "a") :=
  ⟨load_queried_ids_spec.1, load_queried_ids_spec.2 [" a \n"] "a"⟩
